import Mathlib

/-!
Verification development for the Google-Cloud-Billing-Agent repository.

The repository is a Python voice/text chatbot.  The core under scrutiny is
the agent dispatch step `LLMProcessor.run_agent_step` (utils/llm_utils.py),
the flat-file mock store (utils/mock_data.py), the transcription adapter
(utils/audio_utils.py) and the UI glue (app.py).

Shallow embedding conventions:

* Python values that can flow out of `json.loads` are modelled by `PyVal`
  (`None`, booleans, integers, strings, lists, dicts with string keys —
  JSON object keys are always strings).  Float literals in completions are
  outside the model; no claim depends on them.
* The external model call is an input: `raw` stands for the stripped
  completion text `resp.text.strip()`, and `decoded` stands for the result
  of `json.loads raw` (`Option.none` models a `json.JSONDecodeError`).
* Python exceptions escaping a function are modelled with `Except PyErr`.
* The wall clock (`datetime.utcnow()`) is an explicit `PyDatetime` input.
* The three JSON documents of the mock store are one `MockStore` record;
  file reads/writes are tracked as explicit `Event`s in a trace.
-/

/-- A Python value as produced by `json.loads` (floats excluded). -/
inductive PyVal where
  | none
  | bool (b : Bool)
  | int (n : Int)
  | str (s : String)
  | list (xs : List PyVal)
  | dict (kvs : List (String × PyVal))

/-- Lookup in a dict built by `json.loads`: duplicate keys in the JSON text
keep the last occurrence, so we search the association list from the right. -/
def dictLookup (kvs : List (String × PyVal)) (k : String) : Option PyVal :=
  (kvs.reverse.find? (fun p => p.1 == k)).map (fun p => p.2)

/-- Python `d.get(k)`: the value, or `None` when the key is absent. -/
def pyGet (kvs : List (String × PyVal)) (k : String) : PyVal :=
  (dictLookup kvs k).getD PyVal.none

/-- Python truthiness of a `PyVal` (`bool(v)`). -/
def PyVal.isTruthy : PyVal → Bool
  | .none => false
  | .bool b => b
  | .int n => n != 0
  | .str s => s != ""
  | .list [] => false
  | .list (_ :: _) => true
  | .dict [] => false
  | .dict (_ :: _) => true

/-- Python `v == "name"` for a string literal `name`: true only when `v`
is that very string (no cross-type equality among the values we model). -/
def isActionNamed (v : PyVal) (name : String) : Bool :=
  match v with
  | .str s => s == name
  | _ => false

mutual

/-- Python `repr` of a `PyVal`.  String escaping inside `repr` is not
modelled (plain single quotes are emitted); no claim inspects the escaped
form. -/
def pyRepr : PyVal → String
  | .none => "None"
  | .bool true => "True"
  | .bool false => "False"
  | .int n => toString n
  | .str s => "\x27" ++ s ++ "\x27"
  | .list xs => "[" ++ pyReprItems xs ++ "]"
  | .dict kvs => "\x7b" ++ pyReprPairs kvs ++ "\x7d"

/-- Comma-separated `repr`s of list items. -/
def pyReprItems : List PyVal → String
  | [] => ""
  | [x] => pyRepr x
  | x :: y :: xs => pyRepr x ++ ", " ++ pyReprItems (y :: xs)

/-- Comma-separated `repr`s of dict entries. -/
def pyReprPairs : List (String × PyVal) → String
  | [] => ""
  | [(k, v)] => "\x27" ++ k ++ "\x27: " ++ pyRepr v
  | (k, v) :: p :: kvs => "\x27" ++ k ++ "\x27: " ++ pyRepr v ++ ", " ++ pyReprPairs (p :: kvs)

end

/-- Python `str` of a `PyVal`, as used by f-string interpolation:
identical to `repr` except on strings, which are rendered verbatim. -/
def pyStr : PyVal → String
  | .str s => s
  | v => pyRepr v

/-- The substring relation used to state "the reply contains …". -/
def containsSub (s sub : String) : Prop :=
  ∃ p q, s = p ++ (sub ++ q)

/-- A naive UTC datetime as held by `datetime.utcnow()`. -/
structure PyDatetime where
  year : Nat
  month : Nat
  day : Nat
  hour : Nat
  minute : Nat
  second : Nat
  microsecond : Nat

/-- The field ranges `datetime` guarantees. -/
def PyDatetime.Valid (t : PyDatetime) : Prop :=
  1 ≤ t.year ∧ t.year ≤ 9999 ∧ 1 ≤ t.month ∧ t.month ≤ 12 ∧
  1 ≤ t.day ∧ t.day ≤ 31 ∧ t.hour ≤ 23 ∧ t.minute ≤ 59 ∧
  t.second ≤ 59 ∧ t.microsecond ≤ 999999

/-- The character for decimal digit `d`. -/
def digitChar (d : Nat) : Char := Char.ofNat (48 + d)

/-- Fixed-width zero-padded decimal rendering, as `"%0*d"` for in-range
arguments (`n < 10 ^ w`, which `PyDatetime.Valid` guarantees at each use). -/
def padNat : Nat → Nat → List Char
  | 0, _ => []
  | w + 1, n => padNat w (n / 10) ++ [digitChar (n % 10)]

/-- The character content of `datetime.isoformat()`: date, `T`, time, and a
6-digit fraction exactly when the microsecond field is nonzero. -/
def isoformatChars (t : PyDatetime) : List Char :=
  padNat 4 t.year ++ ('-' :: (padNat 2 t.month ++ ('-' :: (padNat 2 t.day ++
  ('T' :: (padNat 2 t.hour ++ (':' :: (padNat 2 t.minute ++ (':' :: (padNat 2 t.second ++
  (if t.microsecond = 0 then [] else '.' :: padNat 6 t.microsecond)))))))))))

/-- Python `datetime.isoformat()` on a naive UTC datetime. -/
def isoformat (t : PyDatetime) : String := String.mk (isoformatChars t)

/-- Is `c` an ASCII decimal digit? -/
def isDigitCh (c : Char) : Bool := Nat.ble 48 c.toNat && Nat.ble c.toNat 57

/-- Consume exactly `k` digit characters, returning the rest. -/
def dropDigits : Nat → List Char → Option (List Char)
  | 0, cs => some cs
  | _ + 1, [] => Option.none
  | k + 1, c :: cs => if isDigitCh c then dropDigits k cs else Option.none

/-- Consume one expected literal character, returning the rest. -/
def dropLit (ch : Char) : List Char → Option (List Char)
  | [] => Option.none
  | c :: cs => if c == ch then some cs else Option.none

/-- Accept the checker tail: either a sole `Z`, or a dot, six digits and `Z`. -/
def isoTailOk (cs : List Char) : Bool :=
  match cs with
  | [] => false
  | c :: rest =>
    if c == 'Z' then rest.isEmpty
    else if c == '.' then
      match dropDigits 6 rest with
      | some rest2 => match rest2 with
        | [z] => z == 'Z'
        | _ => false
      | Option.none => false
    else false

/-- Syntactic well-formedness of a UTC ISO-8601 timestamp with a trailing
`Z`: `YYYY-MM-DDTHH:MM:SS` with an optional `.ffffff` fraction.  This is the
spec-side notion of "well-formed UTC ISO-8601 timestamp", written
independently of `isoformat`. -/
def isIso8601UTCZchars (cs : List Char) : Bool :=
  match (((((((((dropDigits 4 cs).bind (dropLit '-')).bind (dropDigits 2)).bind
      (dropLit '-')).bind (dropDigits 2)).bind (dropLit 'T')).bind
      (dropDigits 2)).bind (dropLit ':')).bind (dropDigits 2)).bind
      (dropLit ':') |>.bind (dropDigits 2) with
  | some rest => isoTailOk rest
  | Option.none => false

/-- Syntactic ISO-8601-UTC well-formedness of a string. -/
def isIso8601UTCZ (s : String) : Bool := isIso8601UTCZchars s.data

/-- One stored ticket record, as appended by `create_ticket`
(mock_data.py lines 24-31): no id field is ever generated. -/
structure TicketRec where
  account : PyVal
  issue : PyVal
  generated_on : String

/-- The three JSON documents of the mock store: `accounts.json` and
`policies.json` are objects keyed by strings, `tickets.json` is an object
whose single `tickets` key holds a list. -/
structure MockStore where
  accounts : List (String × PyVal)
  policies : List (String × PyVal)
  tickets : List TicketRec

/-- Python exceptions that the embedded code can leak. -/
inductive PyErr where
  | attributeError
  | typeError

/-- `get_account` (mock_data.py lines 16-18): load `accounts.json` and call
`.get(account_id)` on it.  The key argument is whatever came out of
`args.get("account_id")`, so it can be any `PyVal`: a string key is looked
up, `None` and other hashable non-strings miss (the document keys are all
strings), and unhashable keys (lists, dicts) raise `TypeError` inside
`dict.get`. -/
def get_account (key : PyVal) (st : MockStore) : Except PyErr PyVal :=
  match key with
  | .list _ => .error .typeError
  | .dict _ => .error .typeError
  | .str s => .ok ((dictLookup st.accounts s).getD PyVal.none)
  | _ => .ok PyVal.none

/-- `get_policy` (mock_data.py lines 20-22), symmetric to `get_account`. -/
def get_policy (key : PyVal) (st : MockStore) : Except PyErr PyVal :=
  match key with
  | .list _ => .error .typeError
  | .dict _ => .error .typeError
  | .str s => .ok ((dictLookup st.policies s).getD PyVal.none)
  | _ => .ok PyVal.none

/-- `create_ticket` (mock_data.py lines 24-32): load `tickets.json`, append
one record carrying the two arguments and `utcnow().isoformat() + "Z"`,
save the whole document back, and return the literal string
`"Ticket created."`.  The clock is the explicit `now` argument. -/
def create_ticket (account_id issue : PyVal) (now : PyDatetime) (st : MockStore) :
    String × MockStore :=
  ("Ticket created.",
   { st with tickets := st.tickets ++
      [{ account := account_id, issue := issue, generated_on := isoformat now ++ "Z" }] })

-- Sanity examples (concrete evaluations of the embedded store).
example : (create_ticket (.str "A1") (.str "billing") ⟨2026, 10, 12, 0, 0, 0, 0⟩
    ⟨[], [], []⟩).1 = "Ticket created." := rfl

example : get_account (.str "missing") ⟨[], [], []⟩ = .ok PyVal.none := rfl

example : isIso8601UTCZ "2026-10-12T00:00:00Z" = true := by decide

example : isIso8601UTCZ "2026-10-12T00:00:00.000001Z" = true := by decide

example : isIso8601UTCZ "not a timestamp" = false := by decide

/-- One message of the conversation history: a role/content string pair as
appended by the UI layer (app.py lines 66-67 and 175-176). -/
structure Message where
  role : String
  content : String

/-- The mutable state of the `LLMProcessor` adapter object that the claims
touch (llm_utils.py lines 7-17).  The `temperature` float and the lazily
created external model handle are not modelled; no claim mentions them. -/
structure LLMProcessor where
  model_name : String
  default_system_prompt : String

/-- The system-prompt literal assigned in `LLMProcessor.__init__`
(llm_utils.py lines 13-17): two adjacent Python string literals, so the
concatenation has no separator before `Output`. -/
def geebotSystemPrompt : String :=
  "You are Geebot, a Google Cloud Billing assistant. Take exactly one action: " ++
  "lookup_account(account_id), lookup_policy(policy_key), create_ticket(account_id,issue), or respond_final(text)." ++
  "Output strictly one JSON object like: \"\x7b\\\"action\\\":\\\"...\\\",\\\"args\\\":\x7b\\\"key\\\":\\\"value\\\"\x7d\x7d\"."

/-- `LLMProcessor.__init__` restricted to the modelled fields. -/
def LLMProcessor.mkNew (model_name : String) : LLMProcessor :=
  { model_name := model_name, default_system_prompt := geebotSystemPrompt }

/-- The history flattening of `run_agent_step` (llm_utils.py lines 79-81):
`history_text += f"\x7bm[\x27role\x27]\x7d: \x7bm[\x27content\x27]\x7d\n"` over the messages in order. -/
def historyText (h : List Message) : String :=
  h.foldl (fun acc m => acc ++ m.role ++ ": " ++ m.content ++ "\n") ""

/-- The prompt assembled by `run_agent_step` (llm_utils.py lines 82-87). -/
def agentPrompt (systemPrompt : String) (h : List Message) (userText : String) : String :=
  systemPrompt ++ "\n\nConversation so far:\n" ++ historyText h ++ ("user: " ++ userText ++ "\n")

/-- Observable effects of one dispatch invocation: the single
text-generation call (with the prompt it was sent), and mock-store file
reads and whole-document writes. -/
inductive Event where
  | modelCall (prompt : String)
  | storeRead (file : String)
  | storeWrite (file : String)

/-- Is this event the text-generation model call? -/
def Event.isModelCall : Event → Bool
  | .modelCall _ => true
  | _ => false

/-- Is this event a side-effecting store write? -/
def Event.isStoreWrite : Event → Bool
  | .storeWrite _ => true
  | _ => false

/-- Result of the action-dispatch part of one agent step. -/
structure DispatchOut where
  reply : Except PyErr PyVal
  store : MockStore
  events : List Event

/-- The effective `args` value (llm_utils.py line 100):
`args = action_obj.get("args", \x7b\x7d) or \x7b\x7d`. -/
def effArgs (kvs : List (String × PyVal)) : PyVal :=
  let a := (dictLookup kvs "args").getD (PyVal.dict [])
  if a.isTruthy then a else PyVal.dict []

/-- The fallback sentence of the `respond_final` branch (llm_utils.py
line 120). -/
def respondFinalFallback : String :=
  "I’m returning a final response, but no text was provided."

/-- Reply of the `lookup_account` branch (llm_utils.py line 105). -/
def lookupAccountReply (accountId result : PyVal) : String :=
  "Here’s what I found for account " ++ pyStr accountId ++ ":\n" ++ pyStr result

/-- Reply of the `lookup_policy` branch (llm_utils.py line 110). -/
def lookupPolicyReply (policyKey result : PyVal) : String :=
  "Here’s the policy for " ++ pyStr policyKey ++ ":\n" ++ pyStr result

/-- Reply of the `create_ticket` branch (llm_utils.py line 116). -/
def createTicketReply (ticketId : String) (accountId issue : PyVal) : String :=
  "I’ve created support ticket " ++ ticketId ++ " for account " ++ pyStr accountId ++
    " about: " ++ pyStr issue

/-- Diagnostic reply on JSON decode failure (llm_utils.py line 97). -/
def decodeFailureReply (raw : String) : String :=
  "(Internal error: expected JSON action, got: " ++ (raw ++ ")")

/-- Diagnostic reply for an unknown action (llm_utils.py line 123). -/
def unknownActionReply (action args : PyVal) : String :=
  "(Internal error: unknown action \x27" ++ pyStr action ++ "\x27 with args " ++
    pyStr args ++ ")"

/-- Lines 93-123 of llm_utils.py: parse the completion and take the single
dispatch branch.  `raw` is the stripped completion text and `decoded` the
outcome of `json.loads raw` (`Option.none` = `json.JSONDecodeError`).
Faithful exception behaviour: `.get` on a decoded non-dict raises
`AttributeError` (only `JSONDecodeError` is caught in the source), and an
unhashable lookup key raises `TypeError` inside `dict.get` after the store
file was already read. -/
def dispatchAction (raw : String) (decoded : Option PyVal) (now : PyDatetime)
    (st : MockStore) : DispatchOut :=
  match decoded with
  | Option.none =>
    { reply := .ok (.str (decodeFailureReply raw)), store := st, events := [] }
  | some (PyVal.dict kvs) =>
    let action := pyGet kvs "action"
    let args := effArgs kvs
    if isActionNamed action "lookup_account" then
      match args with
      | .dict akvs =>
        let accountId := pyGet akvs "account_id"
        match get_account accountId st with
        | .ok result =>
          { reply := .ok (.str (lookupAccountReply accountId result)), store := st,
            events := [.storeRead "accounts.json"] }
        | .error e =>
          { reply := .error e, store := st, events := [.storeRead "accounts.json"] }
      | _ => { reply := .error .attributeError, store := st, events := [] }
    else if isActionNamed action "lookup_policy" then
      match args with
      | .dict akvs =>
        let policyKey := pyGet akvs "policy_key"
        match get_policy policyKey st with
        | .ok result =>
          { reply := .ok (.str (lookupPolicyReply policyKey result)), store := st,
            events := [.storeRead "policies.json"] }
        | .error e =>
          { reply := .error e, store := st, events := [.storeRead "policies.json"] }
      | _ => { reply := .error .attributeError, store := st, events := [] }
    else if isActionNamed action "create_ticket" then
      match args with
      | .dict akvs =>
        let accountId := pyGet akvs "account_id"
        let issue := pyGet akvs "issue"
        let tk := create_ticket accountId issue now st
        { reply := .ok (.str (createTicketReply tk.1 accountId issue)), store := tk.2,
          events := [.storeRead "tickets.json", .storeWrite "tickets.json"] }
      | _ => { reply := .error .attributeError, store := st, events := [] }
    else if isActionNamed action "respond_final" then
      match args with
      | .dict akvs =>
        { reply := .ok ((dictLookup akvs "text").getD (.str respondFinalFallback)),
          store := st, events := [] }
      | _ => { reply := .error .attributeError, store := st, events := [] }
    else
      { reply := .ok (.str (unknownActionReply action args)), store := st, events := [] }
  | some _ =>
    { reply := .error .attributeError, store := st, events := [] }

/-- Full result of one `run_agent_step` invocation.  The `history`
component is the conversation list as it stands when the call returns: the
source only reads `conversation_history` (lines 80-81), so the translation
returns the input list unchanged. -/
structure StepResult where
  reply : Except PyErr PyVal
  store : MockStore
  history : List Message
  trace : List Event

/-- `LLMProcessor.run_agent_step` (llm_utils.py lines 63-123): build the
prompt from the shared system-prompt field and the history, make exactly
one model call (whose stripped text is `raw`, decoding to `decoded`), then
dispatch. -/
def run_agent_step (p : LLMProcessor) (userText : String) (h : List Message)
    (raw : String) (decoded : Option PyVal) (now : PyDatetime) (st : MockStore) :
    StepResult :=
  let d := dispatchAction raw decoded now st
  { reply := d.reply, store := d.store, history := h,
    trace := Event.modelCall (agentPrompt p.default_system_prompt h userText) :: d.events }

/-- `process_transcript` (app.py lines 56-73): run one agent step, then —
only after the dispatch returned — append the user and assistant messages
to the session list.  A Python exception escaping `run_agent_step`
propagates before any append, modelled by `Option.none`.  The assistant
message stores the reply; the source keeps the returned object itself and
every later use renders it with `str`, so the stored content is its
`pyStr` rendering. -/
def process_transcript (p : LLMProcessor) (sess : List Message) (transcript : String)
    (raw : String) (decoded : Option PyVal) (now : PyDatetime) (st : MockStore) :
    Option (List Message × MockStore) :=
  let r := run_agent_step p transcript sess raw decoded now st
  match r.reply with
  | .ok v => some (sess ++ [{ role := "user", content := transcript },
                            { role := "assistant", content := pyStr v }], r.store)
  | .error _ => Option.none

/-- Modelled from the spec: the preset customer-service persona system
prompt (its exact wording is not specified anywhere in the repository). -/
def callCenterPersonaPrompt : String :=
  "You are a customer service assistant for Google Cloud Billing."

/-- Modelled from the spec: the preset lead-generation persona system
prompt. -/
def leadGenerationPersonaPrompt : String :=
  "You are a lead generation assistant for Google Cloud Billing."

/-- Modelled from the spec: `customize_for_call_center` is called from
app.py line 208 but no definition exists anywhere in the repository
sources; per the spec (section 4.3), mode toggling "mutates a single
shared current system prompt string on the LLM adapter", so the method is
modelled as overwriting the shared prompt field with the preset
customer-service persona prompt. -/
def customize_for_call_center (p : LLMProcessor) : LLMProcessor :=
  { p with default_system_prompt := callCenterPersonaPrompt }

/-- Modelled from the spec: `customize_for_lead_generation` is called from
app.py line 212 but no definition exists anywhere in the repository
sources; modelled exactly like `customize_for_call_center` with the
lead-generation persona prompt. -/
def customize_for_lead_generation (p : LLMProcessor) : LLMProcessor :=
  { p with default_system_prompt := leadGenerationPersonaPrompt }

/-- One alternative of a speech-recognition result. -/
structure SpeechAlt where
  transcript : String

/-- One result of a `recognize` response. -/
structure SpeechResult where
  alternatives : List SpeechAlt

/-- Outcome of the external transcription round trip inside the `try`
block of `transcribe_audio` (file read plus `recognize` call):
either the response's result list, or any raised exception rendered as
its message string. -/
inductive SttOutcome where
  | success (results : List SpeechResult)
  | failure (msg : String)

/-- The message of the `IndexError` raised by indexing an empty sequence. -/
def indexErrorMsg : String := "list index out of range"

/-- `AudioProcessor.transcribe_audio` (audio_utils.py lines 44-72): on an
empty result list return `None`; otherwise return the first alternative's
stripped transcript (indexing an empty alternatives list raises
`IndexError`, which the blanket `except` turns into a `CHIRP_ERROR` string);
on any service failure the blanket `except` returns the string
`"CHIRP_ERROR: " + str(e)` — a string, not `None`.  Python `.strip()` is
rendered as `String.trim`. -/
def transcribe_audio (outcome : SttOutcome) : Option String :=
  match outcome with
  | .failure e => some ("CHIRP_ERROR: " ++ e)
  | .success [] => Option.none
  | .success (r :: _) =>
    match r.alternatives with
    | [] => some ("CHIRP_ERROR: " ++ indexErrorMsg)
    | a :: _ => some a.transcript.trim

/-- The store operations reachable from the dispatcher, for stating
read-stability: `get_account` and `get_policy` are pure reads, and
`create_ticket` is the only operation in the repository that follows the
load/append/save pattern (the spec's `append_and_save`), and it only ever
appends to the tickets document. -/
inductive StoreOp where
  | opGetAccount (key : PyVal)
  | opGetPolicy (key : PyVal)
  | opCreateTicket (account issue : PyVal) (now : PyDatetime)

/-- State effect of one store operation. -/
def applyOp (st : MockStore) (op : StoreOp) : MockStore :=
  match op with
  | .opGetAccount _ => st
  | .opGetPolicy _ => st
  | .opCreateTicket a i t => (create_ticket a i t st).2

/-- State after a sequence of store operations. -/
def applyOps (st : MockStore) (ops : List StoreOp) : MockStore :=
  ops.foldl applyOp st

-- Sanity examples for the dispatcher on concrete inputs.
example :
    (run_agent_step (LLMProcessor.mkNew "m") "hi" [] "42" (some (.int 42))
      ⟨2026, 10, 12, 0, 0, 0, 0⟩ ⟨[], [], []⟩).reply = .error .attributeError := rfl

example :
    (run_agent_step (LLMProcessor.mkNew "m") "hi" [] "oops" Option.none
      ⟨2026, 10, 12, 0, 0, 0, 0⟩ ⟨[], [], []⟩).reply =
      .ok (.str "(Internal error: expected JSON action, got: oops)") := rfl

example :
    (run_agent_step (LLMProcessor.mkNew "m") "hi" []
      "x" (some (.dict [("action", .str "respond_final"), ("args", .dict [("text", .str "Hello")])]))
      ⟨2026, 10, 12, 0, 0, 0, 0⟩ ⟨[], [], []⟩).reply = .ok (.str "Hello") := rfl

example :
    (run_agent_step (LLMProcessor.mkNew "m") "hi" []
      "x" (some (.dict [("action", .str "create_ticket"),
        ("args", .dict [("account_id", .str "A1"), ("issue", .str "billing")])]))
      ⟨2026, 10, 12, 0, 0, 0, 0⟩ ⟨[], [], []⟩).store.tickets =
      [{ account := .str "A1", issue := .str "billing",
         generated_on := "2026-10-12T00:00:00Z" }] := rfl

example :
    (run_agent_step (LLMProcessor.mkNew "m") "hi" []
      "x" (some (.dict [("action", .str "create_ticket"),
        ("args", .dict [("account_id", .str "A1"), ("issue", .str "billing")])]))
      ⟨2026, 10, 12, 0, 0, 0, 0⟩ ⟨[], [], []⟩).reply =
      .ok (.str "I’ve created support ticket Ticket created. for account A1 about: billing") := rfl

example :
    (run_agent_step (LLMProcessor.mkNew "m") "hi" []
      "x" (some (.dict [("action", .str "fly"), ("args", .dict [])]))
      ⟨2026, 10, 12, 0, 0, 0, 0⟩ ⟨[], [], []⟩).reply =
      .ok (.str "(Internal error: unknown action \x27fly\x27 with args \x7b\x7d)") := rfl

example :
    (run_agent_step (LLMProcessor.mkNew "m") "hi" []
      "x" (some (.dict [("action", .str "lookup_account"),
        ("args", .dict [("account_id", .str "ACC1")])]))
      ⟨2026, 10, 12, 0, 0, 0, 0⟩ ⟨[("ACC1", .str "Pro plan")], [], []⟩).reply =
      .ok (.str "Here’s what I found for account ACC1:\nPro plan") := rfl

example : transcribe_audio (.failure "boom") = some "CHIRP_ERROR: boom" := rfl

/-! ## Helper lemmas about the timestamp rendering -/

theorem padNat_length (w : Nat) : ∀ n : Nat, (padNat w n).length = w := by
  induction w with
  | zero => intro n; rfl
  | succ w ih => intro n; simp [padNat, ih]

theorem isDigitCh_digitChar (d : Nat) (h : d < 10) : isDigitCh (digitChar d) = true := by
  interval_cases d <;> decide

theorem padNat_digits (w : Nat) : ∀ n : Nat, ∀ c ∈ padNat w n, isDigitCh c = true := by
  induction w with
  | zero => intro n c hc; cases hc
  | succ w ih =>
    intro n c hc
    rw [padNat] at hc
    rcases List.mem_append.mp hc with hc | hc
    · exact ih _ c hc
    · rcases List.mem_singleton.mp hc with rfl
      exact isDigitCh_digitChar _ (Nat.mod_lt _ (by omega))

theorem dropDigits_all (ds : List Char) (rest : List Char)
    (h : ∀ c ∈ ds, isDigitCh c = true) :
    dropDigits ds.length (ds ++ rest) = some rest := by
  induction ds with
  | nil => rfl
  | cons c ds ih =>
    have hc : isDigitCh c = true := h c (List.mem_cons_self c ds)
    simp only [List.length_cons, List.cons_append, dropDigits, hc, if_true]
    exact ih (fun c hc2 => h c (List.mem_cons_of_mem _ hc2))

theorem step_digits (w n : Nat) (rest : List Char) :
    dropDigits w (padNat w n ++ rest) = some rest := by
  have h := dropDigits_all (padNat w n) rest (padNat_digits w n)
  rwa [padNat_length] at h

theorem step_lit (ch : Char) (rest : List Char) :
    dropLit ch (ch :: rest) = some rest := by
  simp [dropLit]

/-- The timestamp stored by `create_ticket` passes the independent
ISO-8601-UTC syntax check, for every clock value. -/
theorem isoformat_append_Z_wf (t : PyDatetime) :
    isIso8601UTCZ (isoformat t ++ "Z") = true := by
  have hdata : (isoformat t ++ "Z").data = isoformatChars t ++ ['Z'] := rfl
  unfold isIso8601UTCZ
  rw [hdata]
  unfold isoformatChars
  by_cases hm : t.microsecond = 0
  · rw [if_pos hm]
    simp only [List.append_assoc, List.cons_append, List.nil_append]
    unfold isIso8601UTCZchars
    rw [step_digits, Option.some_bind, step_lit, Option.some_bind, step_digits,
      Option.some_bind, step_lit, Option.some_bind, step_digits, Option.some_bind,
      step_lit, Option.some_bind, step_digits, Option.some_bind, step_lit,
      Option.some_bind, step_digits, Option.some_bind, step_lit, Option.some_bind,
      step_digits]
    decide
  · rw [if_neg hm]
    simp only [List.append_assoc, List.cons_append, List.nil_append]
    unfold isIso8601UTCZchars
    rw [step_digits, Option.some_bind, step_lit, Option.some_bind, step_digits,
      Option.some_bind, step_lit, Option.some_bind, step_digits, Option.some_bind,
      step_lit, Option.some_bind, step_digits, Option.some_bind, step_lit,
      Option.some_bind, step_digits, Option.some_bind, step_lit, Option.some_bind,
      step_digits]
    show isoTailOk ('.' :: (padNat 6 t.microsecond ++ ['Z'])) = true
    have h6 : dropDigits 6 (padNat 6 t.microsecond ++ ['Z']) = some ['Z'] :=
      step_digits 6 t.microsecond ['Z']
    simp [isoTailOk, h6]

/-! ## Helper lemmas about the dispatcher -/

theorem isActionNamed_eq (v : PyVal) (name : String) :
    isActionNamed v name = true ↔ v = PyVal.str name := by
  cases v <;> simp [isActionNamed]

/-! ## Claims -/

/-- Claim C1 (evidence of the code bug): the source catches only
`json.JSONDecodeError`, so a completion whose text is `"42"` — valid JSON
that decodes to the integer `42`, not an object — reaches
`action_obj.get("action")` and raises `AttributeError` instead of
returning a reply string. -/
theorem run_agent_step_raises_on_nonobject_json :
    (run_agent_step (LLMProcessor.mkNew "gemini-2.5-flash-lite") "hi" [] "42"
      (some (PyVal.int 42)) ⟨2026, 10, 12, 0, 0, 0, 0⟩ ⟨[], [], []⟩).reply =
      .error .attributeError := rfl

/-- Claim C2: dispatching a decoded `create_ticket` action with string
arguments `account_id = A` and `issue = I` appends exactly one record
`(A, I, isoformat-UTC timestamp)` to the tickets collection, leaves all
previously stored tickets and both other collections unchanged, rewrites
the tickets document (one whole-document store write in the trace),
returns a reply containing both `A` and `I`, the stored timestamp passes
an independent ISO-8601-UTC syntax check, and the store-level
`create_ticket` returns only the literal string `"Ticket created."`
(no ticket id exists in the record type). -/
theorem create_ticket_dispatch_spec
    (p : LLMProcessor) (u : String) (h : List Message) (raw : String)
    (kvs akvs : List (String × PyVal)) (A I : String) (now : PyDatetime) (st : MockStore)
    (hact : pyGet kvs "action" = PyVal.str "create_ticket")
    (hargs : effArgs kvs = PyVal.dict akvs)
    (hA : pyGet akvs "account_id" = PyVal.str A)
    (hI : pyGet akvs "issue" = PyVal.str I)
    (hnow : now.Valid) :
    (run_agent_step p u h raw (some (PyVal.dict kvs)) now st).store.tickets =
      st.tickets ++ [{ account := PyVal.str A, issue := PyVal.str I,
                       generated_on := isoformat now ++ "Z" }]
    ∧ (run_agent_step p u h raw (some (PyVal.dict kvs)) now st).store.accounts = st.accounts
    ∧ (run_agent_step p u h raw (some (PyVal.dict kvs)) now st).store.policies = st.policies
    ∧ isIso8601UTCZ (isoformat now ++ "Z") = true
    ∧ (run_agent_step p u h raw (some (PyVal.dict kvs)) now st).reply =
        .ok (.str (createTicketReply "Ticket created." (PyVal.str A) (PyVal.str I)))
    ∧ containsSub (createTicketReply "Ticket created." (PyVal.str A) (PyVal.str I)) A
    ∧ containsSub (createTicketReply "Ticket created." (PyVal.str A) (PyVal.str I)) I
    ∧ (create_ticket (PyVal.str A) (PyVal.str I) now st).1 = "Ticket created."
    ∧ (run_agent_step p u h raw (some (PyVal.dict kvs)) now st).trace =
        [Event.modelCall (agentPrompt p.default_system_prompt h u),
         Event.storeRead "tickets.json", Event.storeWrite "tickets.json"] := by
  have hd : dispatchAction raw (some (PyVal.dict kvs)) now st =
      { reply := .ok (.str (createTicketReply "Ticket created." (PyVal.str A) (PyVal.str I))),
        store := { st with tickets := st.tickets ++
          [{ account := PyVal.str A, issue := PyVal.str I,
             generated_on := isoformat now ++ "Z" }] },
        events := [Event.storeRead "tickets.json", Event.storeWrite "tickets.json"] } := by
    simp [dispatchAction, hact, hargs, hA, hI, isActionNamed, create_ticket]
  refine ⟨?_, ?_, ?_, isoformat_append_Z_wf now, ?_, ?_, ?_, rfl, ?_⟩
  · simp [run_agent_step, hd]
  · simp [run_agent_step, hd]
  · simp [run_agent_step, hd]
  · simp [run_agent_step, hd]
  · exact ⟨"I’ve created support ticket " ++ "Ticket created." ++ " for account ",
      " about: " ++ I, by simp [createTicketReply, pyStr, String.append_assoc]⟩
  · exact ⟨"I’ve created support ticket " ++ "Ticket created." ++ " for account " ++
      A ++ " about: ", "", by simp [createTicketReply, pyStr, String.append_assoc]⟩
  · simp [run_agent_step, hd]

/-- Claim C3: dispatching a decoded `respond_final` action returns the
`text` argument verbatim when present, and the fixed, constant, non-empty
fallback sentence when absent. -/
theorem respond_final_spec
    (p : LLMProcessor) (u : String) (h : List Message) (raw : String)
    (kvs akvs : List (String × PyVal)) (now : PyDatetime) (st : MockStore)
    (hact : pyGet kvs "action" = PyVal.str "respond_final")
    (hargs : effArgs kvs = PyVal.dict akvs) :
    (∀ v, dictLookup akvs "text" = some v →
      (run_agent_step p u h raw (some (PyVal.dict kvs)) now st).reply = .ok v)
    ∧ (dictLookup akvs "text" = Option.none →
      (run_agent_step p u h raw (some (PyVal.dict kvs)) now st).reply =
        .ok (.str respondFinalFallback))
    ∧ respondFinalFallback = "I’m returning a final response, but no text was provided."
    ∧ respondFinalFallback ≠ "" := by
  refine ⟨?_, ?_, rfl, by decide⟩
  · intro v hv
    simp [run_agent_step, dispatchAction, hact, hargs, isActionNamed, hv]
  · intro hv
    simp [run_agent_step, dispatchAction, hact, hargs, isActionNamed, hv]

/-- Claim C4: on JSON decode failure the dispatch returns the literal
diagnostic reply embedding the (stripped) completion text, with no second
model call, no store access and the store unchanged; on an action name
that is none of the four known ones it returns the literal diagnostic
naming the unknown action and its arguments, again with the store
untouched. -/
theorem decode_failure_and_unknown_action_spec
    (p : LLMProcessor) (u : String) (h : List Message) (raw : String)
    (now : PyDatetime) (st : MockStore) (kvs : List (String × PyVal))
    (hno1 : isActionNamed (pyGet kvs "action") "lookup_account" = false)
    (hno2 : isActionNamed (pyGet kvs "action") "lookup_policy" = false)
    (hno3 : isActionNamed (pyGet kvs "action") "create_ticket" = false)
    (hno4 : isActionNamed (pyGet kvs "action") "respond_final" = false) :
    (run_agent_step p u h raw Option.none now st).reply =
      .ok (.str (decodeFailureReply raw))
    ∧ containsSub (decodeFailureReply raw) raw
    ∧ (run_agent_step p u h raw Option.none now st).store = st
    ∧ (run_agent_step p u h raw Option.none now st).trace =
        [Event.modelCall (agentPrompt p.default_system_prompt h u)]
    ∧ (run_agent_step p u h raw (some (PyVal.dict kvs)) now st).reply =
        .ok (.str (unknownActionReply (pyGet kvs "action") (effArgs kvs)))
    ∧ (run_agent_step p u h raw (some (PyVal.dict kvs)) now st).store = st
    ∧ (run_agent_step p u h raw (some (PyVal.dict kvs)) now st).trace =
        [Event.modelCall (agentPrompt p.default_system_prompt h u)] := by
  refine ⟨rfl, ⟨"(Internal error: expected JSON action, got: ", ")", rfl⟩, rfl, rfl,
    ?_, ?_, ?_⟩
  · simp [run_agent_step, dispatchAction, hno1, hno2, hno3, hno4]
  · simp [run_agent_step, dispatchAction, hno1, hno2, hno3, hno4]
  · simp [run_agent_step, dispatchAction, hno1, hno2, hno3, hno4]

/-- Claim C5 (counterexample): a completion decoding to
`\x7b"action": "create_ticket", "args": 5\x7d` has decoded action
`create_ticket`, yet the invocation performs no store write at all (the
branch raises `AttributeError` at `args.get` before reaching the store),
refuting the claimed "store write if and only if the decoded action is
create_ticket". -/
theorem create_ticket_malformed_args_no_write :
    (run_agent_step (LLMProcessor.mkNew "gemini-2.5-flash-lite") "hi" [] "x"
      (some (PyVal.dict [("action", PyVal.str "create_ticket"), ("args", PyVal.int 5)]))
      ⟨2026, 10, 12, 0, 0, 0, 0⟩ ⟨[], [], []⟩).trace.countP Event.isStoreWrite = 0
    ∧ isActionNamed
        (pyGet [("action", PyVal.str "create_ticket"), ("args", PyVal.int 5)] "action")
        "create_ticket" = true
    ∧ (run_agent_step (LLMProcessor.mkNew "gemini-2.5-flash-lite") "hi" [] "x"
      (some (PyVal.dict [("action", PyVal.str "create_ticket"), ("args", PyVal.int 5)]))
      ⟨2026, 10, 12, 0, 0, 0, 0⟩ ⟨[], [], []⟩).reply = .error .attributeError :=
  ⟨rfl, rfl, rfl⟩

/-- Events emitted by the dispatch part of one invocation: no model call,
at most one store write, and exactly one store write precisely when the
completion decoded to an object whose action is `create_ticket` and whose
effective args value is an object. -/
theorem dispatch_events_spec (raw : String) (decoded : Option PyVal)
    (now : PyDatetime) (st : MockStore) :
    (dispatchAction raw decoded now st).events.countP Event.isModelCall = 0
    ∧ (dispatchAction raw decoded now st).events.countP Event.isStoreWrite ≤ 1
    ∧ ((dispatchAction raw decoded now st).events.countP Event.isStoreWrite = 1 ↔
        ∃ kvs, decoded = some (PyVal.dict kvs)
          ∧ isActionNamed (pyGet kvs "action") "create_ticket" = true
          ∧ ∃ akvs, effArgs kvs = PyVal.dict akvs) := by
  cases decoded with
  | none => simp [dispatchAction, List.countP_nil]
  | some v =>
    cases v with
    | dict kvs =>
      by_cases h1 : isActionNamed (pyGet kvs "action") "lookup_account" = true
      · have h1c : isActionNamed (pyGet kvs "action") "create_ticket" = false := by
          rw [isActionNamed_eq] at h1
          simp [h1, isActionNamed]
        rcases harg : effArgs kvs with _ | b | n | s | xs | akvs
        · simp [dispatchAction, h1, harg, h1c, List.countP_nil]
        · simp [dispatchAction, h1, harg, h1c, List.countP_nil]
        · simp [dispatchAction, h1, harg, h1c, List.countP_nil]
        · simp [dispatchAction, h1, harg, h1c, List.countP_nil]
        · simp [dispatchAction, h1, harg, h1c, List.countP_nil]
        · rcases hga : get_account (pyGet akvs "account_id") st with e | r <;>
            simp [dispatchAction, h1, harg, hga, h1c, List.countP_nil,
              List.countP_cons, Event.isStoreWrite, Event.isModelCall]
      · rw [Bool.not_eq_true] at h1
        by_cases h2 : isActionNamed (pyGet kvs "action") "lookup_policy" = true
        · have h2c : isActionNamed (pyGet kvs "action") "create_ticket" = false := by
            rw [isActionNamed_eq] at h2
            simp [h2, isActionNamed]
          rcases harg : effArgs kvs with _ | b | n | s | xs | akvs
          · simp [dispatchAction, h1, h2, harg, h2c, List.countP_nil]
          · simp [dispatchAction, h1, h2, harg, h2c, List.countP_nil]
          · simp [dispatchAction, h1, h2, harg, h2c, List.countP_nil]
          · simp [dispatchAction, h1, h2, harg, h2c, List.countP_nil]
          · simp [dispatchAction, h1, h2, harg, h2c, List.countP_nil]
          · rcases hgp : get_policy (pyGet akvs "policy_key") st with e | r <;>
              simp [dispatchAction, h1, h2, harg, hgp, h2c, List.countP_nil,
                List.countP_cons, Event.isStoreWrite, Event.isModelCall]
        · rw [Bool.not_eq_true] at h2
          by_cases h3 : isActionNamed (pyGet kvs "action") "create_ticket" = true
          · rcases harg : effArgs kvs with _ | b | n | s | xs | akvs
            · simp [dispatchAction, h1, h2, h3, harg, List.countP_nil]
            · simp [dispatchAction, h1, h2, h3, harg, List.countP_nil]
            · simp [dispatchAction, h1, h2, h3, harg, List.countP_nil]
            · simp [dispatchAction, h1, h2, h3, harg, List.countP_nil]
            · simp [dispatchAction, h1, h2, h3, harg, List.countP_nil]
            · simp [dispatchAction, h1, h2, h3, harg, List.countP_nil,
                List.countP_cons, Event.isStoreWrite, Event.isModelCall]
          · rw [Bool.not_eq_true] at h3
            by_cases h4 : isActionNamed (pyGet kvs "action") "respond_final" = true
            · rcases harg : effArgs kvs with _ | b | n | s | xs | akvs <;>
                simp [dispatchAction, h1, h2, h3, h4, harg, List.countP_nil]
            · rw [Bool.not_eq_true] at h4
              simp [dispatchAction, h1, h2, h3, h4, List.countP_nil]
    | none => simp [dispatchAction, List.countP_nil]
    | bool b => simp [dispatchAction, List.countP_nil]
    | int n => simp [dispatchAction, List.countP_nil]
    | str s => simp [dispatchAction, List.countP_nil]
    | list xs => simp [dispatchAction, List.countP_nil]

/-- Claim C5 (amended): every invocation makes exactly one
text-generation model call — it is the first observable event — and at
most one side-effecting store write; exactly one write happens precisely
when the completion decoded to an object whose `action` is
`create_ticket` and whose effective `args` value is an object (with
malformed non-object args the branch raises before the store is touched),
and the write is part of the same single invocation trace, after the
model call and before the reply is returned. -/
theorem single_model_call_single_write_spec
    (p : LLMProcessor) (u : String) (h : List Message) (raw : String)
    (decoded : Option PyVal) (now : PyDatetime) (st : MockStore) :
    (run_agent_step p u h raw decoded now st).trace.countP Event.isModelCall = 1
    ∧ (run_agent_step p u h raw decoded now st).trace.countP Event.isStoreWrite ≤ 1
    ∧ ((run_agent_step p u h raw decoded now st).trace.countP Event.isStoreWrite = 1 ↔
        ∃ kvs, decoded = some (PyVal.dict kvs)
          ∧ isActionNamed (pyGet kvs "action") "create_ticket" = true
          ∧ ∃ akvs, effArgs kvs = PyVal.dict akvs)
    ∧ (run_agent_step p u h raw decoded now st).trace.head? =
        some (Event.modelCall (agentPrompt p.default_system_prompt h u)) := by
  obtain ⟨hm, hw, hiff⟩ := dispatch_events_spec raw decoded now st
  refine ⟨?_, ?_, ?_, rfl⟩
  · simp [run_agent_step, List.countP_cons, Event.isModelCall, hm]
  · simp [run_agent_step, List.countP_cons, Event.isStoreWrite, hw]
  · simp only [run_agent_step, List.countP_cons, Event.isStoreWrite]
    simpa using hiff

/-- Claim C6: the store-level get on an absent key returns the absent
marker (`None`), never an error; a `lookup_account` dispatch whose id is
unknown returns (without raising) the reply built from the absent marker,
whose rendering embeds `None`; for a known id the reply contains the
stored record's rendered content. -/
theorem lookup_absent_key_spec
    (p : LLMProcessor) (u : String) (h : List Message) (raw : String)
    (kvs akvs : List (String × PyVal)) (now : PyDatetime) (st : MockStore)
    (hact : pyGet kvs "action" = PyVal.str "lookup_account")
    (hargs : effArgs kvs = PyVal.dict akvs) :
    (∀ s : String, dictLookup st.accounts s = Option.none →
      get_account (PyVal.str s) st = .ok PyVal.none)
    ∧ (∀ s : String, dictLookup st.policies s = Option.none →
      get_policy (PyVal.str s) st = .ok PyVal.none)
    ∧ get_account PyVal.none st = .ok PyVal.none
    ∧ (∀ s : String, pyGet akvs "account_id" = PyVal.str s →
        dictLookup st.accounts s = Option.none →
        (run_agent_step p u h raw (some (PyVal.dict kvs)) now st).reply =
          .ok (.str (lookupAccountReply (PyVal.str s) PyVal.none))
        ∧ containsSub (lookupAccountReply (PyVal.str s) PyVal.none) "None")
    ∧ (∀ s : String, ∀ v : PyVal, pyGet akvs "account_id" = PyVal.str s →
        dictLookup st.accounts s = some v →
        (run_agent_step p u h raw (some (PyVal.dict kvs)) now st).reply =
          .ok (.str (lookupAccountReply (PyVal.str s) v))
        ∧ containsSub (lookupAccountReply (PyVal.str s) v) (pyStr v)) := by
  refine ⟨?_, ?_, rfl, ?_, ?_⟩
  · intro s hs
    simp [get_account, hs]
  · intro s hs
    simp [get_policy, hs]
  · intro s hsid habs
    constructor
    · simp [run_agent_step, dispatchAction, hact, hargs, isActionNamed, hsid,
        get_account, habs]
    · exact ⟨"Here’s what I found for account " ++ s ++ ":\n", "",
        by simp [lookupAccountReply, pyStr, pyRepr, String.append_assoc]⟩
  · intro s v hsid hknown
    constructor
    · simp [run_agent_step, dispatchAction, hact, hargs, isActionNamed, hsid,
        get_account, hknown]
    · exact ⟨"Here’s what I found for account " ++ s ++ ":\n", "",
        by simp [lookupAccountReply, pyStr, String.append_assoc]⟩

/-- Claim C7 (the two persona methods are modelled from the spec; only
their callers exist in the sources): toggling between the two operating
personas overwrites the single shared `default_system_prompt` string on
the adapter with the chosen preset — last writer wins, the rest of the
adapter state is untouched — and every dispatch builds its prompt from
that one shared field, so the system segment of the prompt is the same
for every conversation history with no per-conversation isolation. -/
theorem persona_toggle_shared_prompt_spec
    (p : LLMProcessor) (u : String) (h : List Message) (raw : String)
    (decoded : Option PyVal) (now : PyDatetime) (st : MockStore) :
    (customize_for_call_center p).default_system_prompt = callCenterPersonaPrompt
    ∧ (customize_for_lead_generation p).default_system_prompt = leadGenerationPersonaPrompt
    ∧ (customize_for_lead_generation (customize_for_call_center p)).default_system_prompt =
        leadGenerationPersonaPrompt
    ∧ (customize_for_call_center (customize_for_lead_generation p)).default_system_prompt =
        callCenterPersonaPrompt
    ∧ (customize_for_call_center p).model_name = p.model_name
    ∧ (customize_for_lead_generation p).model_name = p.model_name
    ∧ (run_agent_step p u h raw decoded now st).trace.head? =
        some (Event.modelCall (agentPrompt p.default_system_prompt h u))
    ∧ (∃ rest, agentPrompt p.default_system_prompt h u =
        p.default_system_prompt ++ rest) := by
  refine ⟨rfl, rfl, rfl, rfl, rfl, rfl, rfl,
    ⟨"\n\nConversation so far:\n" ++ historyText h ++ ("user: " ++ u ++ "\n"), ?_⟩⟩
  simp [agentPrompt, String.append_assoc]

/-- Claim C8 (counterexample): on a transcription-service failure,
`transcribe_audio` returns a `CHIRP_ERROR` string — transcript-like text —
and not the absent result the claim requires. -/
theorem transcribe_failure_not_absent :
    transcribe_audio (.failure "service unavailable") =
      some "CHIRP_ERROR: service unavailable"
    ∧ transcribe_audio (.failure "service unavailable") ≠ Option.none :=
  ⟨rfl, fun hc => Option.noConfusion hc⟩

/-- Claim C8 (amended): `transcribe_audio` returns either a string or the
absent result; the absent result occurs exactly when the recognition call
succeeds with an empty result list; a nonempty result yields the first
alternative's stripped transcript; and a service failure yields the
diagnostic string `"CHIRP_ERROR: " + str(e)` rather than an absent
result. -/
theorem transcribe_audio_spec (e : String) (a : SpeechAlt) (alts : List SpeechAlt)
    (more : List SpeechResult) :
    transcribe_audio (.failure e) = some ("CHIRP_ERROR: " ++ e)
    ∧ transcribe_audio (.success []) = Option.none
    ∧ transcribe_audio (.success ({ alternatives := a :: alts } :: more)) =
        some a.transcript.trim
    ∧ (∀ outcome, transcribe_audio outcome = Option.none ↔ outcome = .success []) := by
  refine ⟨rfl, rfl, rfl, ?_⟩
  intro outcome
  cases outcome with
  | failure msg => simp [transcribe_audio]
  | success results =>
    cases results with
    | nil => simp [transcribe_audio]
    | cons r rs =>
      cases hr : r.alternatives with
      | nil => simp [transcribe_audio, hr]
      | cons a2 as2 => simp [transcribe_audio, hr]

/-- Claim C9: reads of the mock store are stable — `get_account` and
`get_policy` return the same result before and after any sequence of the
repository's store operations, because the only load/append/save
operation (`create_ticket`) appends to the tickets document and never to
the accounts or policies collections; in particular two consecutive gets
with no intervening append return identical results. -/
theorem get_unaffected_by_ops (st : MockStore) (ops : List StoreOp) (key : PyVal) :
    get_account key (applyOps st ops) = get_account key st
    ∧ get_policy key (applyOps st ops) = get_policy key st := by
  have hacc : (applyOps st ops).accounts = st.accounts ∧
      (applyOps st ops).policies = st.policies := by
    induction ops generalizing st with
    | nil => exact ⟨rfl, rfl⟩
    | cons op ops ih =>
      have hop : (applyOp st op).accounts = st.accounts ∧
          (applyOp st op).policies = st.policies := by
        cases op <;> exact ⟨rfl, rfl⟩
      have hrest := ih (applyOp st op)
      exact ⟨hrest.1.trans hop.1, hrest.2.trans hop.2⟩
  constructor
  · cases key <;> simp [get_account, hacc.1]
  · cases key <;> simp [get_policy, hacc.2]

/-- Claim C10: one dispatch invocation leaves the conversation history
exactly as it was — the source only reads `conversation_history` — and the
UI layer (`process_transcript`) is what appends the user and assistant
messages, after the dispatch has returned, preserving every prior message
as a prefix. -/
theorem run_agent_step_preserves_history
    (p : LLMProcessor) (transcript : String) (sess : List Message) (raw : String)
    (decoded : Option PyVal) (now : PyDatetime) (st : MockStore) :
    (run_agent_step p transcript sess raw decoded now st).history = sess
    ∧ (∀ v, (run_agent_step p transcript sess raw decoded now st).reply = .ok v →
        process_transcript p sess transcript raw decoded now st =
          some (sess ++ [{ role := "user", content := transcript },
                         { role := "assistant", content := pyStr v }],
                (run_agent_step p transcript sess raw decoded now st).store)) := by
  refine ⟨rfl, ?_⟩
  intro v hv
  simp [process_transcript, hv]

/-! ## Witnesses -/

/-- Claim C2 witness: the create-ticket theorem evaluated at a concrete
request, store and clock. -/
theorem create_ticket_dispatch_spec_witness :
    pyGet [("action", PyVal.str "create_ticket"),
      ("args", PyVal.dict [("account_id", PyVal.str "A1"), ("issue", PyVal.str "billing")])]
      "action" = PyVal.str "create_ticket"
    ∧ (⟨2026, 10, 12, 9, 30, 0, 0⟩ : PyDatetime).Valid
    ∧ (run_agent_step (LLMProcessor.mkNew "gemini-2.5-flash-lite") "hi" [] "x"
        (some (PyVal.dict [("action", PyVal.str "create_ticket"),
          ("args", PyVal.dict [("account_id", PyVal.str "A1"), ("issue", PyVal.str "billing")])]))
        ⟨2026, 10, 12, 9, 30, 0, 0⟩ ⟨[], [], []⟩).store.tickets =
        [{ account := PyVal.str "A1", issue := PyVal.str "billing",
           generated_on := "2026-10-12T09:30:00Z" }]
    ∧ isIso8601UTCZ "2026-10-12T09:30:00Z" = true
    ∧ (run_agent_step (LLMProcessor.mkNew "gemini-2.5-flash-lite") "hi" [] "x"
        (some (PyVal.dict [("action", PyVal.str "create_ticket"),
          ("args", PyVal.dict [("account_id", PyVal.str "A1"), ("issue", PyVal.str "billing")])]))
        ⟨2026, 10, 12, 9, 30, 0, 0⟩ ⟨[], [], []⟩).reply =
        .ok (.str "I’ve created support ticket Ticket created. for account A1 about: billing")
    ∧ containsSub "I’ve created support ticket Ticket created. for account A1 about: billing" "A1"
    ∧ containsSub "I’ve created support ticket Ticket created. for account A1 about: billing" "billing" := by
  have hval : (⟨2026, 10, 12, 9, 30, 0, 0⟩ : PyDatetime).Valid := by
    unfold PyDatetime.Valid
    decide
  have hth := create_ticket_dispatch_spec (LLMProcessor.mkNew "gemini-2.5-flash-lite")
    "hi" [] "x"
    [("action", PyVal.str "create_ticket"),
     ("args", PyVal.dict [("account_id", PyVal.str "A1"), ("issue", PyVal.str "billing")])]
    [("account_id", PyVal.str "A1"), ("issue", PyVal.str "billing")]
    "A1" "billing" ⟨2026, 10, 12, 9, 30, 0, 0⟩ ⟨[], [], []⟩ rfl rfl rfl rfl hval
  exact ⟨rfl, hval, hth.1, hth.2.2.2.1, hth.2.2.2.2.1, hth.2.2.2.2.2.1, hth.2.2.2.2.2.2.1⟩

/-- Claim C3 witness: `respond_final` with `text = "Hello"` replies exactly
`Hello`; with empty args it replies the fixed fallback sentence. -/
theorem respond_final_spec_witness :
    (run_agent_step (LLMProcessor.mkNew "gemini-2.5-flash-lite") "hi" [] "x"
      (some (PyVal.dict [("action", PyVal.str "respond_final"),
        ("args", PyVal.dict [("text", PyVal.str "Hello")])]))
      ⟨2026, 10, 12, 0, 0, 0, 0⟩ ⟨[], [], []⟩).reply = .ok (.str "Hello")
    ∧ (run_agent_step (LLMProcessor.mkNew "gemini-2.5-flash-lite") "hi" [] "x"
      (some (PyVal.dict [("action", PyVal.str "respond_final")]))
      ⟨2026, 10, 12, 0, 0, 0, 0⟩ ⟨[], [], []⟩).reply = .ok (.str respondFinalFallback)
    ∧ respondFinalFallback ≠ "" := by
  have h1 := respond_final_spec (LLMProcessor.mkNew "gemini-2.5-flash-lite") "hi" [] "x"
    [("action", PyVal.str "respond_final"), ("args", PyVal.dict [("text", PyVal.str "Hello")])]
    [("text", PyVal.str "Hello")] ⟨2026, 10, 12, 0, 0, 0, 0⟩ ⟨[], [], []⟩ rfl rfl
  have h2 := respond_final_spec (LLMProcessor.mkNew "gemini-2.5-flash-lite") "hi" [] "x"
    [("action", PyVal.str "respond_final")] [] ⟨2026, 10, 12, 0, 0, 0, 0⟩ ⟨[], [], []⟩
    rfl rfl
  exact ⟨h1.1 (PyVal.str "Hello") rfl, h2.2.1 rfl, h1.2.2.2⟩

/-- Claim C4 witness: a non-JSON completion and an unknown `fly` action at
concrete inputs. -/
theorem decode_failure_and_unknown_action_spec_witness :
    (run_agent_step (LLMProcessor.mkNew "gemini-2.5-flash-lite") "hi" [] "not json"
      Option.none ⟨2026, 10, 12, 0, 0, 0, 0⟩ ⟨[], [], []⟩).reply =
      .ok (.str "(Internal error: expected JSON action, got: not json)")
    ∧ containsSub "(Internal error: expected JSON action, got: not json)" "not json"
    ∧ (run_agent_step (LLMProcessor.mkNew "gemini-2.5-flash-lite") "hi" [] "x"
      (some (PyVal.dict [("action", PyVal.str "fly")]))
      ⟨2026, 10, 12, 0, 0, 0, 0⟩ ⟨[], [], []⟩).reply =
      .ok (.str "(Internal error: unknown action \x27fly\x27 with args \x7b\x7d)")
    ∧ (run_agent_step (LLMProcessor.mkNew "gemini-2.5-flash-lite") "hi" [] "x"
      (some (PyVal.dict [("action", PyVal.str "fly")]))
      ⟨2026, 10, 12, 0, 0, 0, 0⟩ ⟨[], [], []⟩).store = (⟨[], [], []⟩ : MockStore) := by
  have hth := decode_failure_and_unknown_action_spec (LLMProcessor.mkNew "gemini-2.5-flash-lite")
    "hi" [] "not json" ⟨2026, 10, 12, 0, 0, 0, 0⟩ ⟨[], [], []⟩
    [("action", PyVal.str "fly")] rfl rfl rfl rfl
  have hth2 := decode_failure_and_unknown_action_spec (LLMProcessor.mkNew "gemini-2.5-flash-lite")
    "hi" [] "x" ⟨2026, 10, 12, 0, 0, 0, 0⟩ ⟨[], [], []⟩
    [("action", PyVal.str "fly")] rfl rfl rfl rfl
  exact ⟨hth.1, hth.2.1, hth2.2.2.2.2.1, hth2.2.2.2.2.2.1⟩

/-- Claim C5 witness: on a well-formed create-ticket completion the trace
holds exactly one model call and exactly one store write. -/
theorem single_model_call_single_write_spec_witness :
    (run_agent_step (LLMProcessor.mkNew "gemini-2.5-flash-lite") "hi" [] "x"
      (some (PyVal.dict [("action", PyVal.str "create_ticket"),
        ("args", PyVal.dict [("account_id", PyVal.str "A1"), ("issue", PyVal.str "billing")])]))
      ⟨2026, 10, 12, 0, 0, 0, 0⟩ ⟨[], [], []⟩).trace.countP Event.isModelCall = 1
    ∧ (run_agent_step (LLMProcessor.mkNew "gemini-2.5-flash-lite") "hi" [] "x"
      (some (PyVal.dict [("action", PyVal.str "create_ticket"),
        ("args", PyVal.dict [("account_id", PyVal.str "A1"), ("issue", PyVal.str "billing")])]))
      ⟨2026, 10, 12, 0, 0, 0, 0⟩ ⟨[], [], []⟩).trace.countP Event.isStoreWrite = 1 := by
  have hth := single_model_call_single_write_spec (LLMProcessor.mkNew "gemini-2.5-flash-lite")
    "hi" [] "x"
    (some (PyVal.dict [("action", PyVal.str "create_ticket"),
      ("args", PyVal.dict [("account_id", PyVal.str "A1"), ("issue", PyVal.str "billing")])]))
    ⟨2026, 10, 12, 0, 0, 0, 0⟩ ⟨[], [], []⟩
  refine ⟨hth.1, hth.2.2.1.mpr ?_⟩
  exact ⟨[("action", PyVal.str "create_ticket"),
    ("args", PyVal.dict [("account_id", PyVal.str "A1"), ("issue", PyVal.str "billing")])],
    rfl, rfl, [("account_id", PyVal.str "A1"), ("issue", PyVal.str "billing")], rfl⟩

/-- Claim C6 witness: a concrete store with one account; an unknown id
replies with the absent marker rendering, a known id replies with the
stored record content. -/
theorem lookup_absent_key_spec_witness :
    get_account (PyVal.str "NOPE") ⟨[("ACC123", PyVal.str "Pro plan")], [], []⟩ =
      .ok PyVal.none
    ∧ (run_agent_step (LLMProcessor.mkNew "gemini-2.5-flash-lite") "hi" [] "x"
      (some (PyVal.dict [("action", PyVal.str "lookup_account"),
        ("args", PyVal.dict [("account_id", PyVal.str "NOPE")])]))
      ⟨2026, 10, 12, 0, 0, 0, 0⟩ ⟨[("ACC123", PyVal.str "Pro plan")], [], []⟩).reply =
      .ok (.str "Here’s what I found for account NOPE:\nNone")
    ∧ (run_agent_step (LLMProcessor.mkNew "gemini-2.5-flash-lite") "hi" [] "x"
      (some (PyVal.dict [("action", PyVal.str "lookup_account"),
        ("args", PyVal.dict [("account_id", PyVal.str "ACC123")])]))
      ⟨2026, 10, 12, 0, 0, 0, 0⟩ ⟨[("ACC123", PyVal.str "Pro plan")], [], []⟩).reply =
      .ok (.str "Here’s what I found for account ACC123:\nPro plan")
    ∧ containsSub "Here’s what I found for account ACC123:\nPro plan" "Pro plan" := by
  have hu := lookup_absent_key_spec (LLMProcessor.mkNew "gemini-2.5-flash-lite") "hi" [] "x"
    [("action", PyVal.str "lookup_account"), ("args", PyVal.dict [("account_id", PyVal.str "NOPE")])]
    [("account_id", PyVal.str "NOPE")] ⟨2026, 10, 12, 0, 0, 0, 0⟩
    ⟨[("ACC123", PyVal.str "Pro plan")], [], []⟩ rfl rfl
  have hk := lookup_absent_key_spec (LLMProcessor.mkNew "gemini-2.5-flash-lite") "hi" [] "x"
    [("action", PyVal.str "lookup_account"), ("args", PyVal.dict [("account_id", PyVal.str "ACC123")])]
    [("account_id", PyVal.str "ACC123")] ⟨2026, 10, 12, 0, 0, 0, 0⟩
    ⟨[("ACC123", PyVal.str "Pro plan")], [], []⟩ rfl rfl
  refine ⟨hu.1 "NOPE" rfl, (hu.2.2.2.1 "NOPE" rfl rfl).1, ?_, ?_⟩
  · exact (hk.2.2.2.2 "ACC123" (PyVal.str "Pro plan") rfl rfl).1
  · exact (hk.2.2.2.2 "ACC123" (PyVal.str "Pro plan") rfl rfl).2

/-- Claim C8 witness: the amended transcription contract at concrete
outcomes. -/
theorem transcribe_audio_spec_witness :
    transcribe_audio (.failure "quota exceeded") = some ("CHIRP_ERROR: " ++ "quota exceeded")
    ∧ transcribe_audio (.success []) = Option.none
    ∧ transcribe_audio (.success [{ alternatives := [{ transcript := "  hello  " }] }]) =
        some ("  hello  ".trim)
    ∧ (transcribe_audio (.failure "quota exceeded") = Option.none ↔
        SttOutcome.failure "quota exceeded" = SttOutcome.success []) := by
  have hth := transcribe_audio_spec "quota exceeded" { transcript := "  hello  " } [] []
  exact ⟨hth.1, hth.2.1, hth.2.2.1, hth.2.2.2 (.failure "quota exceeded")⟩

/-- Claim C10 witness: a `respond_final` step at a concrete session; the
history component is unchanged and the UI append yields exactly the two
new messages. -/
theorem run_agent_step_preserves_history_witness :
    (run_agent_step (LLMProcessor.mkNew "gemini-2.5-flash-lite") "hi there"
      [{ role := "user", content := "earlier" }] "x"
      (some (PyVal.dict [("action", PyVal.str "respond_final"),
        ("args", PyVal.dict [("text", PyVal.str "Hello")])]))
      ⟨2026, 10, 12, 0, 0, 0, 0⟩ ⟨[], [], []⟩).history =
      [{ role := "user", content := "earlier" }]
    ∧ process_transcript (LLMProcessor.mkNew "gemini-2.5-flash-lite")
      [{ role := "user", content := "earlier" }] "hi there" "x"
      (some (PyVal.dict [("action", PyVal.str "respond_final"),
        ("args", PyVal.dict [("text", PyVal.str "Hello")])]))
      ⟨2026, 10, 12, 0, 0, 0, 0⟩ ⟨[], [], []⟩ =
      some ([{ role := "user", content := "earlier" },
             { role := "user", content := "hi there" },
             { role := "assistant", content := "Hello" }], ⟨[], [], []⟩) := by
  have hth := run_agent_step_preserves_history (LLMProcessor.mkNew "gemini-2.5-flash-lite")
    "hi there" [{ role := "user", content := "earlier" }] "x"
    (some (PyVal.dict [("action", PyVal.str "respond_final"),
      ("args", PyVal.dict [("text", PyVal.str "Hello")])]))
    ⟨2026, 10, 12, 0, 0, 0, 0⟩ ⟨[], [], []⟩
  exact ⟨hth.1, hth.2 (PyVal.str "Hello") rfl⟩
